import Mathlib

/-!
Shallow embedding of the flutter_network_watcher platform registration shim.

Sources embedded:
- src/linux/flutter_network_watcher_plugin.cc
  (flutter_network_watcher_plugin_handle_method_call, method_call_cb,
   flutter_network_watcher_plugin_register_with_registrar,
   struct _FlutterNetworkWatcherPlugin with no data members)
- src/windows/flutter_network_watcher_plugin.cpp and .h
  (FlutterNetworkWatcherPlugin::RegisterWithRegistrar, the empty
   constructor and destructor, HandleMethodCall)
- src/windows/flutter_network_watcher_plugin_c_api.cpp
  (FlutterNetworkWatcherPluginCApiRegisterWithRegistrar)

Modelling choices:
- The argument payload of a method call is opaque to the shim, so it is a
  type parameter `α`.
- A reply sink is represented by its write trace, a `List (Response α)`;
  the host primitives `fl_method_call_respond_not_implemented` and
  `MethodResult::NotImplemented` append the fixed not-implemented terminal
  response to that trace.
- C++ functions are `void` but control flow could in principle leave by an
  exception, so the handlers and registration functions are embedded with
  an `Except String` codomain; the bodies never produce the error branch.
- Observable host state is the list of channel names for which a
  method-call handler has been installed; the registration bodies are
  empty, so they return it unchanged.
-/

namespace FlutterNetworkWatcher

/-- Observable status of a terminal response written to a reply sink. -/
inductive Status where
  | success
  | error
  | notImplemented
  deriving DecidableEq, Repr

/-- Terminal response a host reply sink can receive (the host framework's
MethodResult / FlMethodCall response kinds): a success carrying a value,
an error with code and message, or the fixed not-implemented response. -/
inductive Response (α : Type) where
  | success (v : α)
  | error (code message : String)
  | notImplemented
  deriving DecidableEq, Repr

/-- Status observation of a response, independent of the payload type. -/
def Response.status {α : Type} : Response α → Status
  | Response.success _ => Status.success
  | Response.error _ _ => Status.error
  | Response.notImplemented => Status.notImplemented

/-- Incoming method-call record: a method name and an opaque argument
payload. The shim never inspects either field. -/
structure MethodCall (α : Type) where
  method : String
  arguments : α
  deriving DecidableEq, Repr

/-- Plugin instance state. struct _FlutterNetworkWatcherPlugin (Linux)
holds only the GObject parent instance and class FlutterNetworkWatcherPlugin
(Windows) declares no data members, so the state carries no fields. -/
structure PluginState where
  deriving DecidableEq

/-- Opaque registrar handle (FlPluginRegistrar on Linux,
flutter::PluginRegistrarWindows on Windows). -/
structure Registrar where
  id : Nat
  deriving DecidableEq, Repr

/-- Opaque desktop registrar reference (FlutterDesktopPluginRegistrarRef),
the argument of the Windows C-API entry point. -/
structure RegistrarRef where
  ref : Nat
  deriving DecidableEq, Repr

/-- Observable host state relevant to registration: the channel names for
which a method-call handler has been installed with the host framework. -/
structure HostState where
  installedHandlers : List String
  deriving DecidableEq, Repr

/-- Host primitive fl_method_call_respond_not_implemented (flutter_linux):
writes the fixed not-implemented terminal response to the call's reply
sink, i.e. appends it to the sink's write trace. -/
def fl_method_call_respond_not_implemented {α : Type}
    (sink : List (Response α)) : List (Response α) :=
  sink ++ [Response.notImplemented]

/-- Host primitive flutter::MethodResult::NotImplemented (Windows): writes
the fixed not-implemented terminal response to the reply sink. -/
def MethodResult.NotImplemented {α : Type}
    (sink : List (Response α)) : List (Response α) :=
  sink ++ [Response.notImplemented]

/-- Linux flutter_network_watcher_plugin_handle_method_call: the body is
the single statement
`fl_method_call_respond_not_implemented(method_call, nullptr);`. -/
def flutter_network_watcher_plugin_handle_method_call {α : Type}
    (self : PluginState) (method_call : MethodCall α)
    (sink : List (Response α)) :
    Except String (PluginState × List (Response α)) :=
  Except.ok (self, fl_method_call_respond_not_implemented sink)

/-- Linux method_call_cb: casts user_data back to the plugin instance and
forwards the call to flutter_network_watcher_plugin_handle_method_call. -/
def method_call_cb {α : Type} (user_data : PluginState)
    (method_call : MethodCall α) (sink : List (Response α)) :
    Except String (PluginState × List (Response α)) :=
  flutter_network_watcher_plugin_handle_method_call user_data method_call sink

/-- Linux flutter_network_watcher_plugin_register_with_registrar: the body
is empty (comment only), so the observable host state is unchanged and no
error is produced. -/
def flutter_network_watcher_plugin_register_with_registrar
    (host : HostState) (registrar : Registrar) : Except String HostState :=
  Except.ok host

/-- Windows FlutterNetworkWatcherPlugin::RegisterWithRegistrar: the body is
empty (comment only), so the observable host state is unchanged and no
error is produced. -/
def RegisterWithRegistrar (host : HostState) (registrar : Registrar) :
    Except String HostState :=
  Except.ok host

/-- Windows constructor FlutterNetworkWatcherPlugin::FlutterNetworkWatcherPlugin():
empty body, initializes no members. -/
def FlutterNetworkWatcherPlugin_ctor : PluginState := {}

/-- Windows destructor: empty body, releases nothing. -/
def FlutterNetworkWatcherPlugin_dtor (self : PluginState) : Unit := ()

/-- Windows FlutterNetworkWatcherPlugin::HandleMethodCall: the body is the
single statement `result->NotImplemented();`. -/
def HandleMethodCall {α : Type} (self : PluginState)
    (method_call : MethodCall α) (result : List (Response α)) :
    Except String (PluginState × List (Response α)) :=
  Except.ok (self, MethodResult.NotImplemented result)

/-- Invocation event recorded by the instrumented C-API entry point: a call
of FlutterNetworkWatcherPlugin::RegisterWithRegistrar with a registrar. -/
inductive RegEvent where
  | registerWithRegistrarCall (r : Registrar)
  deriving DecidableEq, Repr

/-- Windows FlutterNetworkWatcherPluginCApiRegisterWithRegistrar: obtains
the PluginRegistrarWindows for the given desktop registrar reference via
the registrar manager (modelled by the external function `getRegistrar`)
and calls RegisterWithRegistrar on it; the body consists of exactly this
one call, recorded as an invocation event. -/
def FlutterNetworkWatcherPluginCApiRegisterWithRegistrar
    (getRegistrar : RegistrarRef → Registrar) (host : HostState)
    (ref : RegistrarRef) : List RegEvent × Except String HostState :=
  (RegEvent.registerWithRegistrarCall (getRegistrar ref) :: [],
    RegisterWithRegistrar host (getRegistrar ref))

/-- Modelled from the spec: the host framework's call-dispatch mechanism is
not part of this repository ("treated as an external collaborator"); per
the spec a registrar associates a plugin with a named channel, and the host
routes an incoming call on a channel to a plugin handler only when a
handler was installed for that channel. -/
def hostDispatches (host : HostState) (channel : String) : Bool :=
  host.installedHandlers.contains channel

/-- Registration operation of either platform, used to form sequences of
registration calls. -/
inductive RegisterOp where
  | linuxReg (r : Registrar)
  | windowsReg (r : Registrar)
  deriving DecidableEq, Repr

/-- Apply one registration call to the host state (the error branch of the
embedding leaves the state unchanged; it is never taken). -/
def applyRegister (host : HostState) : RegisterOp → HostState
  | RegisterOp.linuxReg r =>
      match flutter_network_watcher_plugin_register_with_registrar host r with
      | Except.ok h => h
      | Except.error _ => host
  | RegisterOp.windowsReg r =>
      match RegisterWithRegistrar host r with
      | Except.ok h => h
      | Except.error _ => host

/-- Apply a sequence of registration calls to the host state. -/
def applyRegisters (host : HostState) (ops : List RegisterOp) : HostState :=
  ops.foldl applyRegister host

/-- Call register n times in succession with the same registrar,
propagating the host state (and any error) from call to call. -/
def registerN (host : HostState) (r : Registrar) : Nat → Except String HostState
  | 0 => Except.ok host
  | Nat.succ n =>
      match flutter_network_watcher_plugin_register_with_registrar host r with
      | Except.ok h => registerN h r n
      | Except.error e => Except.error e

theorem registerN_ok (r : Registrar) :
    ∀ (n : Nat) (host : HostState), registerN host r n = Except.ok host := by
  intro n
  induction n with
  | zero => intro host; rfl
  | succ n ih =>
      intro host
      simpa [registerN, flutter_network_watcher_plugin_register_with_registrar]
        using ih host

theorem applyRegister_id (host : HostState) (op : RegisterOp) :
    applyRegister host op = host := by
  cases op <;> rfl

theorem applyRegisters_id :
    ∀ (ops : List RegisterOp) (host : HostState), applyRegisters host ops = host := by
  intro ops
  induction ops with
  | nil => intro host; rfl
  | cons op ops ih =>
      intro host
      simpa [applyRegisters, List.foldl, applyRegister_id] using ih host

/-- C1: for every method name and every argument payload (of any type),
both the Linux and the Windows method-call handlers write exactly one
not-implemented response to the reply sink — the new portion of the write
trace is the single fixed response — and return the plugin state unchanged
with no error. -/
theorem C1_handle_call_single_not_implemented (α : Type) (self : PluginState)
    (call : MethodCall α) (sink : List (Response α)) :
    flutter_network_watcher_plugin_handle_method_call self call sink
      = Except.ok (self, sink ++ [Response.notImplemented]) ∧
    HandleMethodCall self call sink
      = Except.ok (self, sink ++ [Response.notImplemented]) ∧
    (sink ++ [Response.notImplemented]).drop sink.length
      = [Response.notImplemented] := by
  refine ⟨rfl, rfl, ?_⟩
  simp

/-- C2: for every registrar handle and every host state, both registration
functions return without error and leave the observable host state
unchanged: no channel is created, nothing is retained, no effect occurs. -/
theorem C2_register_no_error_no_effect (host : HostState) (r : Registrar) :
    flutter_network_watcher_plugin_register_with_registrar host r
      = Except.ok host ∧
    RegisterWithRegistrar host r = Except.ok host :=
  ⟨rfl, rfl⟩

/-- C3: register is idempotent: for every registrar, every host state and
every n ≥ 1, calling register n times in succession yields the same
observable state as calling it once, which is the same as calling it zero
times (the unchanged host state), with no error on any call. -/
theorem C3_register_idempotent (host : HostState) (r : Registrar) (n : Nat)
    (h : 1 ≤ n) :
    registerN host r n = registerN host r 1 ∧
    registerN host r n = Except.ok host := by
  constructor
  · rw [registerN_ok r n host, registerN_ok r 1 host]
  · exact registerN_ok r n host

theorem C3_register_idempotent_witness :
    registerN ⟨[]⟩ ⟨0⟩ 3 = registerN ⟨[]⟩ ⟨0⟩ 1 ∧
    registerN ⟨[]⟩ ⟨0⟩ 3 = Except.ok ⟨[]⟩ :=
  C3_register_idempotent ⟨[]⟩ ⟨0⟩ 3 (by decide)

/-- C4: the response of HandleMethodCall is independent of its input: any
two calls, with any method names and argument payloads of any two types,
produce the identical observable status trace, namely the single fixed
not-implemented status; in particular a call whose method name is the empty
string produces that same status with no crash and no validation error. -/
theorem C4_two_run_noninterference (α β : Type) (self₁ self₂ : PluginState)
    (c₁ : MethodCall α) (c₂ : MethodCall β) (args : α) :
    (HandleMethodCall self₁ c₁ []).map (fun p => p.2.map Response.status)
      = (HandleMethodCall self₂ c₂ []).map (fun p => p.2.map Response.status) ∧
    (HandleMethodCall self₁ ⟨"", args⟩ []).map (fun p => p.2.map Response.status)
      = Except.ok [Status.notImplemented] ∧
    (HandleMethodCall self₁ ⟨"", args⟩ []).isOk = true :=
  ⟨rfl, rfl, rfl⟩

/-- C5: neither handler ever raises: for every input the error branch of
the embedding is unreachable, and every execution path ends in the normal
not-implemented response. -/
theorem C5_handle_call_never_throws (α : Type) (self : PluginState)
    (call : MethodCall α) (sink : List (Response α)) :
    (∀ e, flutter_network_watcher_plugin_handle_method_call self call sink
      ≠ Except.error e) ∧
    (∀ e, HandleMethodCall self call sink ≠ Except.error e) ∧
    flutter_network_watcher_plugin_handle_method_call self call sink
      = Except.ok (self, sink ++ [Response.notImplemented]) ∧
    HandleMethodCall self call sink
      = Except.ok (self, sink ++ [Response.notImplemented]) := by
  refine ⟨fun e h => ?_, fun e h => ?_, rfl, rfl⟩ <;>
    simp [flutter_network_watcher_plugin_handle_method_call, HandleMethodCall,
      fl_method_call_respond_not_implemented, MethodResult.NotImplemented] at h

/-- C6: every entry point of the shim is a total function that returns a
normal result on every input: the method-call callback and handler, both
registration functions and the C-API entry point all evaluate to an ok
value, the shallow counterpart of synchronous, immediate completion with no
blocking, suspension or background work. -/
theorem C6_all_entry_points_total (α : Type) (self : PluginState)
    (method_call : MethodCall α) (sink : List (Response α)) (host : HostState)
    (r : Registrar) (getRegistrar : RegistrarRef → Registrar)
    (ref : RegistrarRef) :
    (∃ out, method_call_cb self method_call sink = Except.ok out) ∧
    (∃ out, HandleMethodCall self method_call sink = Except.ok out) ∧
    (∃ h, flutter_network_watcher_plugin_register_with_registrar host r
      = Except.ok h) ∧
    (∃ h, RegisterWithRegistrar host r = Except.ok h) ∧
    (∃ h, (FlutterNetworkWatcherPluginCApiRegisterWithRegistrar getRegistrar
      host ref).2 = Except.ok h) :=
  ⟨⟨_, rfl⟩, ⟨_, rfl⟩, ⟨_, rfl⟩, ⟨_, rfl⟩, ⟨_, rfl⟩⟩

/-- C7: the component has no state machine: the plugin state type has
exactly one inhabitant, so every call visits exactly one state and makes no
transition; and during each call the reply sink is written exactly once,
with the fixed not-implemented status, on both platforms, while the plugin
state is returned unchanged. -/
theorem C7_single_state_single_write (α : Type) (self : PluginState)
    (call : MethodCall α) (sink : List (Response α)) :
    (∀ s t : PluginState, s = t) ∧
    flutter_network_watcher_plugin_handle_method_call self call sink
      = Except.ok (self, sink ++ [Response.notImplemented]) ∧
    HandleMethodCall self call sink
      = Except.ok (self, sink ++ [Response.notImplemented]) ∧
    (sink ++ [Response.notImplemented]).drop sink.length
      = [Response.notImplemented] := by
  refine ⟨fun s t => rfl, rfl, rfl, ?_⟩
  simp

/-- C8: starting from a host with no installed handlers, any sequence of
registration calls (on either platform, with any registrars) leaves the set
of installed handlers empty, so the host dispatch never routes any incoming
call on any channel to the plugin handler: the method-call handler is never
invoked in the registered program. -/
theorem C8_handler_never_invoked (ops : List RegisterOp) (channel : String) :
    (applyRegisters ⟨[]⟩ ops).installedHandlers = [] ∧
    hostDispatches (applyRegisters ⟨[]⟩ ops) channel = false := by
  rw [applyRegisters_id ops ⟨[]⟩]
  exact ⟨rfl, rfl⟩

/-- C9: the Windows C-API registration entry point invokes
RegisterWithRegistrar exactly once, with the registrar obtained from the
desktop registrar reference, and has no observable effect beyond that
delegation: its result equals the result of RegisterWithRegistrar, which is
the unchanged host state. -/
theorem C9_capi_delegates_exactly_once (getRegistrar : RegistrarRef → Registrar)
    (host : HostState) (ref : RegistrarRef) :
    (FlutterNetworkWatcherPluginCApiRegisterWithRegistrar getRegistrar host
      ref).1 = [RegEvent.registerWithRegistrarCall (getRegistrar ref)] ∧
    (FlutterNetworkWatcherPluginCApiRegisterWithRegistrar getRegistrar host
      ref).2 = RegisterWithRegistrar host (getRegistrar ref) ∧
    (FlutterNetworkWatcherPluginCApiRegisterWithRegistrar getRegistrar host
      ref).2 = Except.ok host :=
  ⟨rfl, rfl, rfl⟩

/-- C10: the plugin object is stateless: its state type has no data, the
constructor produces the unique state and the destructor has no effect, so
HandleMethodCall is deterministic: two runs on any two plugin instances
with the same call produce identical responses, and each call returns the
instance without residual state change. -/
theorem C10_stateless_deterministic (α : Type) (self₁ self₂ : PluginState)
    (call : MethodCall α) (sink : List (Response α)) :
    HandleMethodCall self₁ call sink = HandleMethodCall self₂ call sink ∧
    HandleMethodCall self₁ call sink
      = Except.ok (self₁, sink ++ [Response.notImplemented]) ∧
    FlutterNetworkWatcherPlugin_ctor = self₁ ∧
    FlutterNetworkWatcherPlugin_dtor self₁ = () :=
  ⟨rfl, rfl, rfl, rfl⟩

end FlutterNetworkWatcher
